import Mathlib

/-!
Verification of the TopoFlow energy-balance evapotranspiration component
(`topoflow/components/evap_energy_balance.py`).

Shallow embedding choices:
* Numeric component state is modelled over an index type `ι`: each field is a
  function `ι → ℚ`.  A scalar value is the constant function (`ι := Unit` in
  concrete instances), a grid is an arbitrary family; numpy's elementwise
  arithmetic on same-shape operands is pointwise function arithmetic.
  Machine floats are idealised as exact rationals.
* The base-class method `is_scalar` (from `evap_base.py`, outside this file's
  source) is an oracle stored in the state: a function from the short variable
  name to a Boolean.
* The lookup tables (`_att_map`, `_var_name_map`, `_var_units_map`) are
  association lists; Python's `dict[k]` with a `KeyError` on a miss becomes
  `Except`, the `try/except/print` wrapper of `get_attribute` becomes `Option`
  (returning `none` instead of propagating).
* `model_input.open_file` / `model_input.read_next` live in
  `topoflow/utils/model_input.py`, outside the given source; `open_file` is
  modelled from the spec and `read_next` is abstracted by passing the values
  it yields (`Option`, `none` = no new value) as arguments.
-/

namespace EvapEnergyBalance

/-- Component state of `evap_component`, over an index type `ι`.
Numeric fields are families `ι → ℚ` (constant families model scalars);
the remaining fields model the file-handling bookkeeping used by
`open_input_files` / `read_input_files` / `close_input_files` and the
`ALL_SCALARS` flag set by `check_input_types`. -/
structure State (ι : Type) where
  Q_sum    : ι → ℚ
  Qe       : ι → ℚ
  T_surf   : ι → ℚ
  T_air    : ι → ℚ
  T_soil_x : ι → ℚ
  soil_x   : ι → ℚ
  K_soil   : ι → ℚ
  h_snow   : ι → ℚ
  Qc       : ι → ℚ
  ET       : ι → ℚ
  ALL_SCALARS : Bool
  is_scalar   : String → Bool
  in_directory  : String
  K_soil_file   : String
  soil_x_file   : String
  T_soil_x_file : String
  K_soil_type   : String
  soil_x_type   : String
  T_soil_x_type : String
  K_soil_unit   : Option (String × String)
  soil_x_unit   : Option (String × String)
  T_soil_x_unit : Option (String × String)

/-- The class attribute `_att_map` (lines 49–64 of the source). -/
def _att_map : List (String × String) :=
  [ ("model_name",        "TopoFlow_Evaporation_Energy_Balance"),
    ("version",           "3.1"),
    ("author_name",       "Scott D. Peckham"),
    ("grid_type",         "uniform"),
    ("time_step_type",    "fixed"),
    ("step_method",       "explicit"),
    ("comp_name",         "EvapEnergyBalance"),
    ("model_family",      "TopoFlow"),
    ("cfg_template_file", "Evap_Energy_Balance.cfg.in"),
    ("cfg_extension",     "_evap_energy_balance.cfg"),
    ("cmt_var_prefix",    "/EvapEnergyBalance/Input/Var/"),
    ("gui_xml_file",      "/home/csdms/cca/topoflow/3.1/src/share/cmt/gui/Evap_Energy_Balance.xml"),
    ("dialog_title",      "Evaporation: Energy Balance Parameters"),
    ("time_units",        "seconds") ]

/-- The class attribute `_input_var_names` (lines 86–95). -/
def _input_var_names : List String :=
  [ "air__temperature",
    "channel_water__depth",
    "land_surface_air__latent_heat_flux",
    "land_surface__net_irradiation_flux",
    "land_surface__temperature",
    "soil_model_top_layer__porosity",
    "soil_model_top_layer__wetted_thickness",
    "soil_water_table_surface__elevation",
    "snow__depth" ]

/-- The class attribute `_output_var_names` (lines 113–117). -/
def _output_var_names : List String :=
  [ "land_water__evaporation_rate",
    "land_water__area_time_integral_of_evaporation_rate",
    "model__time_step",
    "soil_surface__conduction_energy_flux" ]

/-- The class attribute `_var_name_map` (lines 135–157). -/
def _var_name_map : List (String × String) :=
  [ ("air__temperature",                                   "T_air"),
    ("channel_water__depth",                               "depth"),
    ("land_surface_air__latent_heat_flux",                 "Qe"),
    ("land_surface__net_irradiation_flux",                 "Q_sum"),
    ("land_surface__temperature",                          "T_surf"),
    ("soil_model_top_layer__porosity",                     "p0"),
    ("soil_model_top_layer__wetted_thickness",             "y0"),
    ("soil_water_table_surface__elevation",                "h_table"),
    ("snow__depth",                                        "h_snow"),
    ("land_water__evaporation_rate",                       "ET"),
    ("land_water__area_time_integral_of_evaporation_rate", "vol_ET"),
    ("model__time_step",                                   "dt"),
    ("soil_surface__conduction_energy_flux",               "Qc"),
    ("land_surface__elevation",                            "DEM"),
    ("soil__reference_depth_temperature",                  "T_soil_x"),
    ("soil__temperature_reference_depth",                  "soil_x"),
    ("soil__thermal_conductivity",                         "K_soil") ]

/-- The class attribute `_var_units_map` (lines 162–184); the stray `]` in
the last unit string is in the source. -/
def _var_units_map : List (String × String) :=
  [ ("air__temperature",                                   "deg_C"),
    ("channel_water__depth",                               "m"),
    ("land_surface_air__latent_heat_flux",                 "W m-2"),
    ("land_surface__net_irradiation_flux",                 "W m-2"),
    ("land_surface__temperature",                          "deg_C"),
    ("soil_model_top_layer__porosity",                     "1"),
    ("soil_model_top_layer__wetted_thickness",             "m"),
    ("soil_water_table_surface__elevation",                "m"),
    ("snow__depth",                                        "m"),
    ("land_water__evaporation_rate",                       "m s-1"),
    ("land_water__area_time_integral_of_evaporation_rate", "m3"),
    ("model__time_step",                                   "s"),
    ("soil_surface__conduction_energy_flux",               "W m-2"),
    ("land_surface__elevation",                            "m"),
    ("soil__reference_depth_temperature",                  "deg_C"),
    ("soil__temperature_reference_depth",                  "m"),
    ("soil__thermal_conductivity",                         "W m-1 deg_C-1]") ]

/-- ASCII lower-casing of one character, as Python's `str.lower` acts on the
ASCII attribute names used here. -/
def lowerChar (c : Char) : Char :=
  if 65 ≤ c.toNat ∧ c.toNat ≤ 90 then Char.ofNat (c.toNat + 32) else c

/-- `att_name.lower()`: ASCII lower-casing of a string, character by
character. -/
def strLower (s : String) : String := ⟨s.data.map lowerChar⟩

/-- `get_attribute` (lines 193–202): looks up the lower-cased name in
`_att_map`; a miss is caught by the `try/except`, printed, and the method
returns Python's `None` — modelled as `Option.none` (no propagating error). -/
def get_attribute (att_name : String) : Option String :=
  _att_map.lookup (strLower att_name)

/-- `get_input_var_names` (lines 205–211). -/
def get_input_var_names : List String := _input_var_names

/-- `get_output_var_names` (lines 215–217). -/
def get_output_var_names : List String := _output_var_names

/-- `get_var_name` (lines 221–223): a plain `dict` lookup whose `KeyError`
propagates — modelled as `Except`, `.error` carrying the unknown key. -/
def get_var_name (long_var_name : String) : Except String String :=
  match _var_name_map.lookup long_var_name with
  | some v => Except.ok v
  | none   => Except.error long_var_name

/-- `get_var_units` (lines 227–229): a plain `dict` lookup whose `KeyError`
propagates — modelled as `Except`, `.error` carrying the unknown key. -/
def get_var_units (long_var_name : String) : Except String String :=
  match _var_units_map.lookup long_var_name with
  | some v => Except.ok v
  | none   => Except.error long_var_name

/-- `check_input_types` (lines 243–289): builds the array of the seven
`is_scalar` checks and sets `ALL_SCALARS` to their conjunction (`np.all`). -/
def check_input_types {ι : Type} (s : State ι) : State ι :=
  let are_scalars : List Bool :=
    [ s.is_scalar "T_soil_x",
      s.is_scalar "soil_x",
      s.is_scalar "K_soil",
      s.is_scalar "h_snow",
      s.is_scalar "Q_sum",
      s.is_scalar "Qe",
      s.is_scalar "T_air" ]
  { s with ALL_SCALARS := are_scalars.all id }

/-- `update_ET_rate` (lines 291–359): Fourier conduction
`Qc = K_soil * (T_soil_x - T_surf) / soil_x`, available energy
`Qet = Q_sum - Qe`, and `ET = maximum(Qet / 2.5e9, 0)`; stores `Qc` and `ET`. -/
def update_ET_rate {ι : Type} (s : State ι) : State ι :=
  let Q_sum  := s.Q_sum
  let Qe     := s.Qe
  let T_surf := s.T_surf
  let delta_T : ι → ℚ := fun i => s.T_soil_x i - T_surf i
  let Qc : ι → ℚ := fun i => s.K_soil i * delta_T i / s.soil_x i
  let Qet : ι → ℚ := fun i => Q_sum i - Qe i
  let ET : ι → ℚ := fun i => Qet i / (2.5e9 : ℚ)
  { s with Qc := Qc, ET := fun i => max (ET i) 0 }

/-- Modelled from the spec: `model_input.open_file` (in
`topoflow/utils/model_input.py`, not part of the given source) "opens a read
handle/iterator appropriate to its declared type" for the resolved path; the
handle is abstracted as the (type, path) pair that determines it. -/
def open_file (t : String) (f : String) : Option (String × String) :=
  some (t, f)

/-- `open_input_files` (lines 363–377): prepends `in_directory` to each of the
three path fields (mutating them), then opens each via `model_input.open_file`. -/
def open_input_files {ι : Type} (s : State ι) : State ι :=
  let K_soil_file   := s.in_directory ++ s.K_soil_file
  let soil_x_file   := s.in_directory ++ s.soil_x_file
  let T_soil_x_file := s.in_directory ++ s.T_soil_x_file
  { s with
    K_soil_file   := K_soil_file,
    soil_x_file   := soil_x_file,
    T_soil_x_file := T_soil_x_file,
    K_soil_unit   := open_file s.K_soil_type K_soil_file,
    soil_x_unit   := open_file s.soil_x_type soil_x_file,
    T_soil_x_unit := open_file s.T_soil_x_type T_soil_x_file }

/-- `read_input_files` (lines 381–398): `model_input.read_next` on each of the
three sources is abstracted by the three `Option` arguments (the value each
source yields this step, `none` = Python `None`); a field is overwritten only
when its source yields a value. -/
def read_input_files {ι : Type} (s : State ι)
    (K_soil soil_x T_soil_x : Option (ι → ℚ)) : State ι :=
  let s1 := match K_soil with
            | some v => { s with K_soil := v }
            | none   => s
  let s2 := match soil_x with
            | some v => { s1 with soil_x := v }
            | none   => s1
  match T_soil_x with
  | some v => { s2 with T_soil_x := v }
  | none   => s2

/-- `close_input_files` (lines 402–407): closes the handle of each input whose
declared type is not `"Scalar"`; closing is modelled as dropping the handle. -/
def close_input_files {ι : Type} (s : State ι) : State ι :=
  let s1 := if s.K_soil_type ≠ "Scalar" then { s with K_soil_unit := none } else s
  let s2 := if s.soil_x_type ≠ "Scalar" then { s1 with soil_x_unit := none } else s1
  if s.T_soil_x_type ≠ "Scalar" then { s2 with T_soil_x_unit := none } else s2

/-- A concrete all-zero state over `ι := Unit`, used to build test states. -/
def baseState : State Unit :=
  { Q_sum := fun _ => 0, Qe := fun _ => 0, T_surf := fun _ => 0,
    T_air := fun _ => 0, T_soil_x := fun _ => 0, soil_x := fun _ => 1,
    K_soil := fun _ => 0, h_snow := fun _ => 0, Qc := fun _ => 0,
    ET := fun _ => 0, ALL_SCALARS := false, is_scalar := fun _ => true,
    in_directory := "", K_soil_file := "", soil_x_file := "",
    T_soil_x_file := "", K_soil_type := "Scalar", soil_x_type := "Scalar",
    T_soil_x_type := "Scalar", K_soil_unit := none, soil_x_unit := none,
    T_soil_x_unit := none }

/-- Scenario A of the spec: `Q_sum=300, Qe=50, T_soil_x=15, T_surf=10,
soil_x=1.0, K_soil=0.45`, as a scalar (`Unit`-indexed) state. -/
def scenarioA : State Unit :=
  { baseState with
    Q_sum := fun _ => 300, Qe := fun _ => 50, T_soil_x := fun _ => 15,
    T_surf := fun _ => 10, soil_x := fun _ => 1,
    K_soil := fun _ => (0.45 : ℚ) }

/-- Scenario B of the spec: an energy deficit, `Q_sum=50, Qe=100`. -/
def scenarioB : State Unit :=
  { baseState with Q_sum := fun _ => 50, Qe := fun _ => 100 }

/-- A concrete state with a nonempty input directory and three file names. -/
def stateD : State Unit :=
  { baseState with
    in_directory := "in/",
    K_soil_file := "Ks.bin",
    soil_x_file := "sx.bin",
    T_soil_x_file := "Ts.bin" }

/-- A concrete state with an empty input directory and three file names. -/
def stateE : State Unit :=
  { baseState with
    in_directory := "",
    K_soil_file := "Ks.bin",
    soil_x_file := "sx.bin",
    T_soil_x_file := "Ts.bin" }

/-- Appending a nonempty string `d` in front of `d ++ f` changes it. -/
theorem prepend_ne_of_ne_empty (d f : String) (h : d ≠ "") :
    d ++ (d ++ f) ≠ d ++ f := by
  intro heq
  have hl := congrArg String.length heq
  simp [String.length_append] at hl
  have hd : d.data = [] := List.length_eq_zero.mp hl
  cases d
  simp_all

/-- C1: after `update_ET_rate` the stored `ET` family is non-negative at every
index (so each element is ≥ 0 in the grid case), and `ET` is left unchanged by
every other operation of the component (`check_input_types`,
`open_input_files`, `read_input_files` for any values the sources yield, and
`close_input_files`) — none of them writes `ET`. -/
theorem ET_nonneg_invariant (ι : Type) (s : State ι) :
    (∀ i, 0 ≤ (update_ET_rate s).ET i) ∧
    (check_input_types s).ET = s.ET ∧
    (open_input_files s).ET = s.ET ∧
    (∀ a b c, (read_input_files s a b c).ET = s.ET) ∧
    (close_input_files s).ET = s.ET := by
  refine ⟨fun i => ?_, rfl, rfl, fun a b c => ?_, ?_⟩
  · simp only [update_ET_rate]
    exact le_max_right _ 0
  · cases a <;> cases b <;> cases c <;> rfl
  · simp only [close_input_files]
    split <;> split <;> split <;> rfl

/-- C2: `update_ET_rate` stores exactly
`Qc = K_soil * (T_soil_x - T_surf) / soil_x` and
`ET = max ((Q_sum - Qe) / 2.5e9) 0`, and on Scenario A
(`Q_sum=300, Qe=50, T_soil_x=15, T_surf=10, soil_x=1, K_soil=0.45`)
it stores `Qc = 2.25` and `ET = 1.0e-7`. -/
theorem update_ET_rate_formulas_and_scenarioA :
    (∀ (ι : Type) (s : State ι),
      (update_ET_rate s).Qc
        = (fun i => s.K_soil i * (s.T_soil_x i - s.T_surf i) / s.soil_x i) ∧
      (update_ET_rate s).ET
        = (fun i => max ((s.Q_sum i - s.Qe i) / (2.5e9 : ℚ)) 0)) ∧
    (update_ET_rate scenarioA).Qc () = (2.25 : ℚ) ∧
    (update_ET_rate scenarioA).ET () = (1.0e-7 : ℚ) := by
  refine ⟨fun ι s => ⟨rfl, rfl⟩, ?_, ?_⟩ <;>
    norm_num [update_ET_rate, scenarioA, baseState, max_def]

/-- C3: whenever `Q_sum - Qe ≤ 0` at an index, `update_ET_rate` stores
`ET = 0` there, whatever `K_soil`, `T_soil_x`, `T_surf` and `soil_x` are
(`Qc` does not enter the energy available for evaporation). -/
theorem ET_zero_on_energy_deficit (ι : Type) (s : State ι) (i : ι)
    (h : s.Q_sum i - s.Qe i ≤ 0) : (update_ET_rate s).ET i = 0 := by
  simp only [update_ET_rate]
  exact max_eq_right (div_nonpos_iff.mpr (Or.inr ⟨h, by norm_num⟩))

/-- Witness for C3 at Scenario B (`Q_sum=50, Qe=100`). -/
theorem ET_zero_on_energy_deficit_witness :
    (scenarioB.Q_sum () - scenarioB.Qe () ≤ 0) ∧
    (update_ET_rate scenarioB).ET () = 0 :=
  ⟨by norm_num [scenarioB, baseState],
   ET_zero_on_energy_deficit Unit scenarioB ()
     (by norm_num [scenarioB, baseState])⟩

/-- C4: when `K_soil > 0` and `soil_x > 0` at an index, the `Qc` stored by
`update_ET_rate` there has the sign of `T_soil_x - T_surf`: positive iff
`T_soil_x > T_surf`, negative iff `T_soil_x < T_surf`, zero iff they are
equal. -/
theorem Qc_sign_matches_temperature_difference (ι : Type) (s : State ι)
    (i : ι) (hK : 0 < s.K_soil i) (hx : 0 < s.soil_x i) :
    (0 < (update_ET_rate s).Qc i ↔ s.T_surf i < s.T_soil_x i) ∧
    ((update_ET_rate s).Qc i < 0 ↔ s.T_soil_x i < s.T_surf i) ∧
    ((update_ET_rate s).Qc i = 0 ↔ s.T_soil_x i = s.T_surf i) := by
  have hQc : (update_ET_rate s).Qc i
      = s.K_soil i / s.soil_x i * (s.T_soil_x i - s.T_surf i) := by
    simp only [update_ET_rate]
    rw [mul_div_right_comm]
  have hq : 0 < s.K_soil i / s.soil_x i := div_pos hK hx
  rw [hQc]
  refine ⟨?_, ?_, ?_⟩
  · rw [mul_pos_iff_of_pos_left hq]
    exact sub_pos
  · constructor
    · intro h
      nlinarith
    · intro h
      exact mul_neg_of_pos_of_neg hq (by linarith)
  · rw [mul_eq_zero]
    simp [hq.ne', sub_eq_zero]

/-- Witness for C4 at Scenario A (`K_soil=0.45 > 0`, `soil_x=1 > 0`,
`T_soil_x=15 > T_surf=10`). -/
theorem Qc_sign_matches_temperature_difference_witness :
    (0 < scenarioA.K_soil () ∧ 0 < scenarioA.soil_x ()) ∧
    (0 < (update_ET_rate scenarioA).Qc ()
      ↔ scenarioA.T_surf () < scenarioA.T_soil_x ()) :=
  ⟨⟨by norm_num [scenarioA, baseState], by norm_num [scenarioA, baseState]⟩,
   (Qc_sign_matches_temperature_difference Unit scenarioA ()
     (by norm_num [scenarioA, baseState])
     (by norm_num [scenarioA, baseState])).1⟩

/-- C5: `check_input_types` sets `ALL_SCALARS` to `true` iff every one of the
seven checked inputs (`T_soil_x`, `soil_x`, `K_soil`, `h_snow`, `Q_sum`,
`Qe`, `T_air`) is individually scalar; if any one is a grid the flag is
`false`. -/
theorem check_input_types_all_scalars_iff (ι : Type) (s : State ι) :
    (check_input_types s).ALL_SCALARS = true ↔
      (s.is_scalar "T_soil_x" = true ∧ s.is_scalar "soil_x" = true ∧
       s.is_scalar "K_soil" = true ∧ s.is_scalar "h_snow" = true ∧
       s.is_scalar "Q_sum" = true ∧ s.is_scalar "Qe" = true ∧
       s.is_scalar "T_air" = true) := by
  simp [check_input_types, List.all, Bool.and_eq_true, and_assoc]

/-- C6: every identifier in the input and output variable lists resolves in
both `_var_name_map` and `_var_units_map` (`get_var_name` and `get_var_units`
succeed on all of them), and
`get_var_units "land_water__evaporation_rate"` is `"m s-1"`. -/
theorem var_lists_resolve_in_name_and_units_maps :
    (∀ id ∈ _input_var_names ++ _output_var_names,
      (get_var_name id).isOk = true ∧ (get_var_units id).isOk = true) ∧
    get_var_units "land_water__evaporation_rate" = Except.ok "m s-1" := by
  constructor
  · decide
  · rfl

/-- Witness for C6 at the listed identifier `air__temperature`. -/
theorem var_lists_resolve_in_name_and_units_maps_witness :
    ("air__temperature" ∈ _input_var_names ++ _output_var_names) ∧
    ((get_var_name "air__temperature").isOk = true ∧
     (get_var_units "air__temperature").isOk = true) :=
  ⟨by decide,
   var_lists_resolve_in_name_and_units_maps.1 "air__temperature" (by decide)⟩

/-- C7: for a name absent (after lower-casing) from `_att_map`,
`get_attribute` returns the undefined value (`none`, no propagating error —
the `except` branch prints and falls through), while for identifiers absent
from `_var_name_map` or `_var_units_map`, `get_var_name` and `get_var_units`
fail with a propagating `KeyError`-equivalent (`Except.error`). -/
theorem lookup_miss_semantics :
    (∀ n, _att_map.lookup (strLower n) = none → get_attribute n = none) ∧
    (∀ id, _var_name_map.lookup id = none →
      get_var_name id = Except.error id) ∧
    (∀ id, _var_units_map.lookup id = none →
      get_var_units id = Except.error id) := by
  refine ⟨fun n h => ?_, fun id h => ?_, fun id h => ?_⟩ <;>
    simp [get_attribute, get_var_name, get_var_units, h]

/-- Witness for C7 at the absent names `No_Such_Attribute` and
`no_such_identifier`. -/
theorem lookup_miss_semantics_witness :
    (_att_map.lookup (strLower "No_Such_Attribute") = none ∧
      get_attribute "No_Such_Attribute" = none) ∧
    (_var_name_map.lookup "no_such_identifier" = none ∧
      get_var_name "no_such_identifier" = Except.error "no_such_identifier") ∧
    (_var_units_map.lookup "no_such_identifier" = none ∧
      get_var_units "no_such_identifier" = Except.error "no_such_identifier") :=
  ⟨⟨by decide, lookup_miss_semantics.1 "No_Such_Attribute" (by decide)⟩,
   ⟨by decide, lookup_miss_semantics.2.1 "no_such_identifier" (by decide)⟩,
   ⟨by decide, lookup_miss_semantics.2.2 "no_such_identifier" (by decide)⟩⟩

/-- C8: `read_input_files` overwrites each of `K_soil`, `soil_x`, `T_soil_x`
with the value its source yields when there is one, retains the previous
value when the source yields none, and leaves every other state field
unchanged. -/
theorem read_input_files_semantics (ι : Type) (s : State ι)
    (k x t : Option (ι → ℚ)) :
    (read_input_files s k x t).K_soil = k.getD s.K_soil ∧
    (read_input_files s k x t).soil_x = x.getD s.soil_x ∧
    (read_input_files s k x t).T_soil_x = t.getD s.T_soil_x ∧
    (read_input_files s k x t).Q_sum = s.Q_sum ∧
    (read_input_files s k x t).Qe = s.Qe ∧
    (read_input_files s k x t).T_surf = s.T_surf ∧
    (read_input_files s k x t).T_air = s.T_air ∧
    (read_input_files s k x t).h_snow = s.h_snow ∧
    (read_input_files s k x t).Qc = s.Qc ∧
    (read_input_files s k x t).ET = s.ET ∧
    (read_input_files s k x t).ALL_SCALARS = s.ALL_SCALARS ∧
    (read_input_files s k x t).is_scalar = s.is_scalar ∧
    (read_input_files s k x t).in_directory = s.in_directory ∧
    (read_input_files s k x t).K_soil_file = s.K_soil_file ∧
    (read_input_files s k x t).soil_x_file = s.soil_x_file ∧
    (read_input_files s k x t).T_soil_x_file = s.T_soil_x_file ∧
    (read_input_files s k x t).K_soil_type = s.K_soil_type ∧
    (read_input_files s k x t).soil_x_type = s.soil_x_type ∧
    (read_input_files s k x t).T_soil_x_type = s.T_soil_x_type ∧
    (read_input_files s k x t).K_soil_unit = s.K_soil_unit ∧
    (read_input_files s k x t).soil_x_unit = s.soil_x_unit ∧
    (read_input_files s k x t).T_soil_x_unit = s.T_soil_x_unit := by
  cases k <;> cases x <;> cases t <;> simp [read_input_files]

/-- C9: `update_ET_rate` mutates only `Qc` and `ET`: every other field of the
state is unchanged.  The descriptor tables (`_att_map`, `_var_name_map`,
`_var_units_map`, `_input_var_names`, `_output_var_names`) are module-level
constants that no operation writes, and the embedding of the method is a pure
state transformer — it performs no I/O. -/
theorem update_ET_rate_frame (ι : Type) (s : State ι) :
    (update_ET_rate s).Q_sum = s.Q_sum ∧
    (update_ET_rate s).Qe = s.Qe ∧
    (update_ET_rate s).T_surf = s.T_surf ∧
    (update_ET_rate s).T_air = s.T_air ∧
    (update_ET_rate s).T_soil_x = s.T_soil_x ∧
    (update_ET_rate s).soil_x = s.soil_x ∧
    (update_ET_rate s).K_soil = s.K_soil ∧
    (update_ET_rate s).h_snow = s.h_snow ∧
    (update_ET_rate s).ALL_SCALARS = s.ALL_SCALARS ∧
    (update_ET_rate s).is_scalar = s.is_scalar ∧
    (update_ET_rate s).in_directory = s.in_directory ∧
    (update_ET_rate s).K_soil_file = s.K_soil_file ∧
    (update_ET_rate s).soil_x_file = s.soil_x_file ∧
    (update_ET_rate s).T_soil_x_file = s.T_soil_x_file ∧
    (update_ET_rate s).K_soil_type = s.K_soil_type ∧
    (update_ET_rate s).soil_x_type = s.soil_x_type ∧
    (update_ET_rate s).T_soil_x_type = s.T_soil_x_type ∧
    (update_ET_rate s).K_soil_unit = s.K_soil_unit ∧
    (update_ET_rate s).soil_x_unit = s.soil_x_unit ∧
    (update_ET_rate s).T_soil_x_unit = s.T_soil_x_unit := by
  refine ⟨rfl, rfl, rfl, rfl, rfl, rfl, rfl, rfl, rfl, rfl,
          rfl, rfl, rfl, rfl, rfl, rfl, rfl, rfl, rfl, rfl⟩

/-- C10 counterexample: with an empty `in_directory` (`stateE`), calling
`open_input_files` twice leaves each path field equal to the result of
calling it once — the operation IS idempotent on these fields there, so the
claim's "rather than `in_directory + original value`" (non-idempotence for
every state) fails at this concrete input. -/
theorem open_input_files_idempotent_on_stateE :
    (open_input_files (open_input_files stateE)).K_soil_file
        = (open_input_files stateE).K_soil_file ∧
    (open_input_files (open_input_files stateE)).soil_x_file
        = (open_input_files stateE).soil_x_file ∧
    (open_input_files (open_input_files stateE)).T_soil_x_file
        = (open_input_files stateE).T_soil_x_file :=
  ⟨rfl, rfl, rfl⟩

/-- C10 (amended): for every state, calling `open_input_files` twice leaves
each path field equal to `in_directory ++ (in_directory ++ original value)`;
when `in_directory` is nonempty this differs from the single-call value
`in_directory ++ original value` (so the operation is not idempotent on
these fields), while for an empty `in_directory` the two coincide. -/
theorem open_input_files_twice_prepends (ι : Type) (s : State ι) :
    ((open_input_files (open_input_files s)).K_soil_file
        = s.in_directory ++ (s.in_directory ++ s.K_soil_file) ∧
     (open_input_files (open_input_files s)).soil_x_file
        = s.in_directory ++ (s.in_directory ++ s.soil_x_file) ∧
     (open_input_files (open_input_files s)).T_soil_x_file
        = s.in_directory ++ (s.in_directory ++ s.T_soil_x_file)) ∧
    (s.in_directory ≠ "" →
      (open_input_files (open_input_files s)).K_soil_file
          ≠ (open_input_files s).K_soil_file ∧
      (open_input_files (open_input_files s)).soil_x_file
          ≠ (open_input_files s).soil_x_file ∧
      (open_input_files (open_input_files s)).T_soil_x_file
          ≠ (open_input_files s).T_soil_x_file) := by
  refine ⟨⟨rfl, rfl, rfl⟩, fun h => ?_⟩
  exact ⟨prepend_ne_of_ne_empty _ _ h, prepend_ne_of_ne_empty _ _ h,
         prepend_ne_of_ne_empty _ _ h⟩

/-- Witness for C10 (amended) at `stateD`, whose input directory is the
nonempty string "in/". -/
theorem open_input_files_twice_prepends_witness :
    stateD.in_directory ≠ "" ∧
    (open_input_files (open_input_files stateD)).K_soil_file
        ≠ (open_input_files stateD).K_soil_file :=
  ⟨by decide,
   ((open_input_files_twice_prepends Unit stateD).2 (by decide)).1⟩

end EvapEnergyBalance
